import Mathlib

/-!
Verification development for mesonbuild/compilers/mixins/arm.py: the ARM
family compiler mixins (ArmCompiler, ArmclangCompiler), their flag tables,
the path-argument rewriter, and the armlink toolchain validation performed
at ArmclangCompiler construction.

Python strings are embedded as Lean String values, manipulated through
their underlying character lists so that every definition evaluates by
kernel reduction. Python dictionaries become association lists; dictionary
lookup yields Option (none embeds a KeyError). The constructor is embedded
as a function of the ambient state it reads (the cross flag, the compiler
version, the outcome of the process launch), returning the construction
outcome together with the number of external processes spawned.
-/

/-- Exceptions that the embedded constructor code can raise: the meson
EnvironmentException with its message, a bare assert failure, and a
TypeError (raised by Python when a str is concatenated with None). -/
inductive PyError
  | environmentException (msg : String)
  | assertionError
  | typeError
deriving DecidableEq, Repr

/-! ## POSIX path utilities (os.path.join, os.path.normpath)

CPython posixpath semantics, transcribed over character lists. -/

/-- Does the second list start with the first one? -/
def startsWithList : List Char → List Char → Bool
  | [], _ => true
  | _ :: _, [] => false
  | a :: as, b :: bs => a == b && startsWithList as bs

/-- Split a character list on a separator character, Python str.split
semantics: the empty input yields one empty field. -/
def splitOnChar (sep : Char) : List Char → List (List Char)
  | [] => [[]]
  | c :: rest =>
      let r := splitOnChar sep rest
      if c = sep then [] :: r
      else
        match r with
        | [] => [[c]]
        | l :: ls => (c :: l) :: ls

/-- Join fields with a slash, Python sep.join semantics. -/
def joinSlash : List (List Char) → List Char
  | [] => []
  | [x] => x
  | x :: xs => x ++ '/' :: joinSlash xs

/-- One iteration of the component loop inside CPython posixpath.normpath:
drop empty and dot components, append a component that is not a dotdot (or
is a dotdot that cannot be cancelled), otherwise pop the last component. -/
def normStep (initialSlashes : Nat) (acc : List (List Char)) (comp : List Char) :
    List (List Char) :=
  if comp = [] ∨ comp = ['.'] then acc
  else if comp ≠ ['.', '.'] ∨ (initialSlashes = 0 ∧ acc = [])
          ∨ acc.getLast? = some ['.', '.'] then acc ++ [comp]
  else if acc ≠ [] then acc.dropLast
  else acc

/-- CPython posixpath.normpath over a character list: collapse repeated
separators and dot segments, resolve dotdot segments, keep one leading
slash (or exactly two when the input starts with exactly two). -/
def normpathL (p : List Char) : List Char :=
  if p = [] then ['.']
  else
    let initialSlashes : Nat :=
      if startsWithList ['/'] p then
        (if startsWithList ['/', '/'] p ∧ ¬ startsWithList ['/', '/', '/'] p then 2 else 1)
      else 0
    let comps := splitOnChar '/' p
    let newComps := comps.foldl (normStep initialSlashes) []
    let res := List.replicate initialSlashes '/' ++ joinSlash newComps
    if res = [] then ['.'] else res

/-- CPython posixpath.join with two arguments, over character lists: an
absolute second argument replaces the first; otherwise the parts are glued
with a slash unless the first part is empty or already ends in one. -/
def posixJoinL (a b : List Char) : List Char :=
  if startsWithList ['/'] b then b
  else if a = [] ∨ a.getLast? = some '/' then a ++ b
  else a ++ '/' :: b

/-- os.path.normpath on Lean strings. -/
def normpath (p : String) : String := String.mk (normpathL p.data)

/-- os.path.join on Lean strings. -/
def posixJoin (a b : String) : String := String.mk (posixJoinL a.data b.data)

/-! ## Flag tables (module-level dictionaries of arm.py) -/

/-- arm_buildtype_args. -/
def arm_buildtype_args : List (String × List String) :=
  [("plain", []),
   ("debug", ["-O0", "--debug"]),
   ("debugoptimized", ["-O1", "--debug"]),
   ("release", ["-O3", "-Otime"]),
   ("minsize", ["-O3", "-Ospace"]),
   ("custom", [])]

/-- arm_optimization_args. -/
def arm_optimization_args : List (String × List String) :=
  [("0", ["-O0"]),
   ("g", ["-g"]),
   ("1", ["-O1"]),
   ("2", ["-O2"]),
   ("3", ["-O3"]),
   ("s", [])]

/-- armclang_buildtype_args. -/
def armclang_buildtype_args : List (String × List String) :=
  [("plain", []),
   ("debug", ["-O0", "-g"]),
   ("debugoptimized", ["-O1", "-g"]),
   ("release", ["-Os"]),
   ("minsize", ["-Oz"]),
   ("custom", [])]

/-- armclang_optimization_args. -/
def armclang_optimization_args : List (String × List String) :=
  [("0", ["-O0"]),
   ("g", ["-g"]),
   ("1", ["-O1"]),
   ("2", ["-O2"]),
   ("3", ["-O3"]),
   ("s", ["-Os"])]

/-- Python dict subscription d[k]: some value, or none for a KeyError. -/
def dictGet (d : List (String × List String)) (k : String) : Option (List String) :=
  (d.find? (fun kv => kv.1 == k)).map Prod.snd

/-! ## The path-argument rewriter

Both classes define the same compute_parameters_with_absolute_paths body:
a loop over enumerate(parameter_list) that assigns back into the list at
tokens whose first two characters are -I or -L. -/

/-- The transform the loop body applies to one token: when the first two
characters are -I or -L, keep them and rebase the remainder onto the build
directory with os.path.normpath(os.path.join(build_dir, rest)). -/
def rewriteToken (build_dir : String) (i : String) : String :=
  if i.data.take 2 = ['-', 'I'] ∨ i.data.take 2 = ['-', 'L'] then
    String.mk (i.data.take 2 ++ normpathL (posixJoinL build_dir.data (i.data.drop 2)))
  else i

/-- compute_parameters_with_absolute_paths: the enumerate loop of the
source, token by token. -/
def compute_parameters_with_absolute_paths : List String → String → List String
  | [], _ => []
  | i :: rest, build_dir =>
      (if i.data.take 2 = ['-', 'I'] ∨ i.data.take 2 = ['-', 'L'] then
        String.mk (i.data.take 2 ++ normpathL (posixJoinL build_dir.data (i.data.drop 2)))
      else i) :: compute_parameters_with_absolute_paths rest build_dir

/-- The caller-supplied list as it stands after the call: the source
assigns into parameter_list\[idx\] in place and then returns the very same
list object, so what the caller holds afterwards is the rewritten list,
not the original. -/
def input_list_after_call (parameter_list : List String) (build_dir : String) :
    List String :=
  compute_parameters_with_absolute_paths parameter_list build_dir

/-! ## The armlink version check of ArmclangCompiler construction

The constructor runs Popen_safe('armlink', '--vsn'), then
re.search('.*Component.*', stdout), then re.search of the version pattern
(?<!(\d|\.))(\d\x7b1,2\x7d(\.\d+)+(-[a-zA-Z0-9]+)?) on the matched line, then
mesonlib.version_compare(self.version, '==' + linker_ver). -/

/-- Does the needle occur as a contiguous run inside the haystack? -/
def containsSub (needle : List Char) : List Char → Bool
  | [] => startsWithList needle []
  | c :: rest => startsWithList needle (c :: rest) || containsSub needle rest

/-- re.search of the pattern .*Component.* : a dot never crosses a newline,
and the earliest matching position is the start of the first
newline-separated line containing "Component"; group(0) then spans that
whole line. The result is that line, or none when no line qualifies. -/
def searchComponent (stdo : String) : Option (List Char) :=
  (splitOnChar '\n' stdo.data).find?
    (fun line => containsSub ['C', 'o', 'm', 'p', 'o', 'n', 'e', 'n', 't'] line)

/-- ASCII alphanumeric, the character class \x5ba-zA-Z0-9\x5d. -/
def isAlnumAscii (c : Char) : Bool := c.isAlpha || c.isDigit

/-- The repeated group (\.\d+)+ matched greedily: consume as many
dot-plus-digit-run groups as possible (each digit run maximal), returning
the consumed characters and the rest. Nothing after the group constrains
it, so the greedy maximum is what the backtracking engine keeps. The fuel
only bounds recursion depth; each level consumes at least two characters,
so fuel equal to the list length never runs out. -/
def matchDots : Nat → List Char → Option (List Char × List Char)
  | 0, _ => none
  | _ + 1, [] => none
  | fuel + 1, c :: rest =>
      if c = '.' then
        let ds := rest.takeWhile Char.isDigit
        if ds = [] then none
        else
          match matchDots fuel (rest.dropWhile Char.isDigit) with
          | some (more, rest3) => some (c :: (ds ++ more), rest3)
          | none => some (c :: ds, rest.dropWhile Char.isDigit)
      else none

/-- The optional trailing group (-\x5ba-zA-Z0-9\x5d+)? : a dash followed by a
nonempty maximal alphanumeric run, or nothing. -/
def matchTag : List Char → List Char
  | c :: rest =>
      if c = '-' then
        let tag := rest.takeWhile isAlnumAscii
        if tag = [] then [] else c :: tag
      else []
  | [] => []

/-- The negative lookbehind (?<!(\d|\.)): the position is rejected when the
preceding character exists and is a digit or a dot. -/
def prevBlocks : Option Char → Bool
  | none => false
  | some c => c.isDigit || c == '.'

/-- One anchored attempt of the version pattern. After the lookbehind, the
\d\x7b1,2\x7d piece: when the digit run here has length three or more no match is
possible (taking two digits or one, the next character is still a digit
where the mandatory dot group needs a dot), so only runs of length one or
two proceed, whole, into the match. -/
def matchHere (prev : Option Char) (l : List Char) : Option (List Char) :=
  if prevBlocks prev then none
  else
    let ds := l.takeWhile Char.isDigit
    if ds.length = 0 ∨ 2 < ds.length then none
    else
      let rest := l.dropWhile Char.isDigit
      match matchDots rest.length rest with
      | none => none
      | some (dots, rest2) => some (ds ++ dots ++ matchTag rest2)

/-- re.search: scan positions left to right, carrying the preceding
character for the lookbehind; the first successful anchored match wins. -/
def searchVer : Option Char → List Char → Option (List Char)
  | prev, [] => matchHere prev []
  | prev, c :: rest =>
      match matchHere prev (c :: rest) with
      | some t => some t
      | none => searchVer (some c) rest

/-- The version-extraction regex of environment.search_version applied by
re.search, on character lists. -/
def search_versionL (s : List Char) : Option (List Char) := searchVer none s

/-- The same on Lean strings. -/
def search_version (s : String) : Option String :=
  (search_versionL s.data).map (fun l => String.mk l)

/-- Modelled from the spec: mesonlib.version_compare lives outside this
tree. For the comparison string '==' ++ v used here the spec prescribes
strict equality ("string equality in this design, not semantic version
range matching"), so the check holds exactly when the condition is the
compiler version led by the two equality signs. -/
def version_compare (v cond : String) : Bool := cond == "==" ++ v

/-! ## The two family profiles and their constructors -/

/-- The fields ArmCompiler.init assigns on self that matter here. -/
structure ArmProfile where
  id : String
deriving DecidableEq, Repr

/-- The fields ArmclangCompiler.init assigns on self that matter here. -/
structure ArmclangProfile where
  id : String
  base_options : List String
deriving DecidableEq, Repr

namespace ArmCompiler

/-- ArmCompiler.init: raises EnvironmentException unless cross-compiling,
otherwise sets self.id = 'arm'. It launches no external process, so the
spawn count in the second component is zero on every path. -/
def init (is_cross : Bool) : Except PyError ArmProfile × Nat :=
  if ¬ is_cross then
    (Except.error (PyError.environmentException "armcc supports only cross-compilation."), 0)
  else
    (Except.ok ⟨"arm"⟩, 0)

/-- ArmCompiler.get_buildtype_args: dictionary subscription on
arm_buildtype_args. -/
def get_buildtype_args (buildtype : String) : Option (List String) :=
  dictGet arm_buildtype_args buildtype

/-- ArmCompiler.get_optimization_args: dictionary subscription on
arm_optimization_args. -/
def get_optimization_args (optimization_level : String) : Option (List String) :=
  dictGet arm_optimization_args optimization_level

/-- ArmCompiler.get_pic_args. -/
def get_pic_args : List String := []

/-- ArmCompiler.get_always_args. -/
def get_always_args : List String := []

/-- ArmCompiler.get_dependency_gen_args. -/
def get_dependency_gen_args (outtarget outfile : String) : List String := []

/-- ArmCompiler.get_pch_use_args. -/
def get_pch_use_args (pch_dir header : String) : List String := []

/-- ArmCompiler.get_pch_suffix. -/
def get_pch_suffix : String := "pch"

/-- ArmCompiler.get_coverage_args. -/
def get_coverage_args : List String := []

end ArmCompiler

namespace ArmclangCompiler

/-- The list assigned to self.base_options on success. -/
def base_options_value : List String :=
  ["b_pch", "b_lto", "b_pgo", "b_sanitize", "b_coverage",
   "b_ndebug", "b_staticpic", "b_colorout"]

/-- ArmclangCompiler.init, as a function of the ambient state the
constructor reads: the cross flag, self.version, and the outcome of
Popen_safe('armlink', '--vsn') (error text of a raised OSError, or the
captured stdout). The second component counts spawned processes.

Two paths mirror slips in the source faithfully rather than the intent:
when no Component line exists, the source builds
EnvironmentException('armlink version string not found') without raising
it, and the following bare assert on the None match raises AssertionError;
when the Component line yields no version token, linker_ver stays None and
the expression '==' + linker_ver raises TypeError before version_compare
runs. -/
def init (is_cross : Bool) (version : String) (popen : Except String String) :
    Except PyError ArmclangProfile × Nat :=
  if ¬ is_cross then
    (Except.error (PyError.environmentException "armclang supports only cross-compilation."), 0)
  else
    match popen with
    | Except.error e =>
        (Except.error (PyError.environmentException
          ("Unknown linker\nRunning \"armlink --vsn\" gave \n\"" ++ e ++ "\"")), 1)
    | Except.ok stdo =>
        match searchComponent stdo with
        | none => (Except.error PyError.assertionError, 1)
        | some ver_str =>
            match search_versionL ver_str with
            | none => (Except.error PyError.typeError, 1)
            | some linker_ver =>
                if version_compare version ("==" ++ String.mk linker_ver) then
                  (Except.ok ⟨"armclang", base_options_value⟩, 1)
                else
                  (Except.error (PyError.environmentException
                    "armlink version does not match with compiler version"), 1)

/-- ArmclangCompiler.get_buildtype_args: dictionary subscription on
armclang_buildtype_args. -/
def get_buildtype_args (buildtype : String) : Option (List String) :=
  dictGet armclang_buildtype_args buildtype

/-- ArmclangCompiler.get_optimization_args: dictionary subscription on
armclang_optimization_args. -/
def get_optimization_args (optimization_level : String) : Option (List String) :=
  dictGet armclang_optimization_args optimization_level

/-- ArmclangCompiler.get_pic_args. -/
def get_pic_args : List String := []

/-- ArmclangCompiler.get_pch_suffix. -/
def get_pch_suffix : String := "gch"

/-- ArmclangCompiler.get_pch_use_args: the pch-name computation
self.get_pch_name(header) is inherited from a base class outside this
tree, so it enters as a function argument; the method itself returns the
two-token include-pch list. -/
def get_pch_use_args (get_pch_name : String → String) (pch_dir header : String) :
    List String :=
  ["-include-pch", posixJoin pch_dir (get_pch_name header)]

/-- ArmclangCompiler.get_dependency_gen_args. -/
def get_dependency_gen_args (outtarget outfile : String) : List String := []

/-- Modelled from the spec: get_always_args for this family is inherited
from a base class outside this tree; the spec says capability queries
default to an empty list. -/
def get_always_args : List String := []

/-- Modelled from the spec: get_coverage_args for this family is inherited
from a base class outside this tree; the spec says capability queries
default to an empty list. -/
def get_coverage_args : List String := []

end ArmclangCompiler

/-! ## Helper lemmas -/

/-- The rewriting loop computes, position by position, the per-token
transform: it is the map of rewriteToken over the input. -/
theorem cpwap_eq_map (args : List String) (bd : String) :
    compute_parameters_with_absolute_paths args bd = args.map (rewriteToken bd) := by
  induction args with
  | nil => rfl
  | cons i rest ih =>
      simp [compute_parameters_with_absolute_paths, rewriteToken, ih]

/-- The per-token transform never changes the first two characters of a
token. -/
theorem take2_rewriteToken (bd i : String) :
    (rewriteToken bd i).data.take 2 = i.data.take 2 := by
  unfold rewriteToken
  split
  · rename_i h
    rcases h with h | h <;> rw [h] <;> rfl
  · rfl

/-- A list map is the identity on a list exactly when the function fixes
every member. -/
theorem map_eq_self_of_list {α : Type} (f : α → α) (l : List α) :
    l.map f = l ↔ ∀ x ∈ l, f x = x := by
  induction l with
  | nil => simp
  | cons a as ih => simp [ih]

/-- The strict-equality reading of the version comparison: the condition
string built as '==' ++ x satisfies the check against v exactly when x and
v are the same string. -/
theorem version_compare_append (v x : String) :
    version_compare v ("==" ++ x) = true ↔ x = v := by
  unfold version_compare
  rw [beq_iff_eq]
  constructor
  · intro h
    have h2 := congrArg String.data h
    simp only [String.data_append] at h2
    exact String.ext (List.append_cancel_left h2)
  · intro h
    rw [h]

/-! ## Claims -/

/-- C3: constructing either ARM-family profile with the cross flag false
fails at once with the cross-only EnvironmentException, and the process
spawn count is zero: Popen_safe is never reached. -/
theorem C3_cross_only (version : String) (popen : Except String String) :
    ArmCompiler.init false
      = (Except.error (PyError.environmentException "armcc supports only cross-compilation."), 0)
    ∧ ArmclangCompiler.init false version popen
      = (Except.error (PyError.environmentException "armclang supports only cross-compilation."), 0) :=
  ⟨rfl, rfl⟩

/-- C5: for both families every one of the six build-type keys has a
defined entry, and the plain and custom keys map to the empty argument
list. -/
theorem C5_buildtype_total (k : String)
    (h : k ∈ ["plain", "debug", "debugoptimized", "release", "minsize", "custom"]) :
    ((ArmCompiler.get_buildtype_args k).isSome
      ∧ (ArmclangCompiler.get_buildtype_args k).isSome)
    ∧ ArmCompiler.get_buildtype_args "plain" = some []
    ∧ ArmCompiler.get_buildtype_args "custom" = some []
    ∧ ArmclangCompiler.get_buildtype_args "plain" = some []
    ∧ ArmclangCompiler.get_buildtype_args "custom" = some [] := by
  fin_cases h <;> exact ⟨by decide, by decide, by decide, by decide, by decide⟩

/-- Witness for C5 at the key plain. -/
theorem C5_buildtype_total_witness :
    ("plain" ∈ ["plain", "debug", "debugoptimized", "release", "minsize", "custom"])
    ∧ (((ArmCompiler.get_buildtype_args "plain").isSome
          ∧ (ArmclangCompiler.get_buildtype_args "plain").isSome)
        ∧ ArmCompiler.get_buildtype_args "plain" = some []
        ∧ ArmCompiler.get_buildtype_args "custom" = some []
        ∧ ArmclangCompiler.get_buildtype_args "plain" = some []
        ∧ ArmclangCompiler.get_buildtype_args "custom" = some []) :=
  ⟨by decide, C5_buildtype_total "plain" (by decide)⟩

/-- C6: the optimization tables, literally: on the five shared keys each
family returns exactly the one-token list of its table, and on the key s
the arm family returns the empty list while armclang returns -Os. -/
theorem C6_optimization_tables :
    ArmCompiler.get_optimization_args "0" = some ["-O0"]
    ∧ ArmCompiler.get_optimization_args "g" = some ["-g"]
    ∧ ArmCompiler.get_optimization_args "1" = some ["-O1"]
    ∧ ArmCompiler.get_optimization_args "2" = some ["-O2"]
    ∧ ArmCompiler.get_optimization_args "3" = some ["-O3"]
    ∧ ArmCompiler.get_optimization_args "s" = some []
    ∧ ArmclangCompiler.get_optimization_args "0" = some ["-O0"]
    ∧ ArmclangCompiler.get_optimization_args "g" = some ["-g"]
    ∧ ArmclangCompiler.get_optimization_args "1" = some ["-O1"]
    ∧ ArmclangCompiler.get_optimization_args "2" = some ["-O2"]
    ∧ ArmclangCompiler.get_optimization_args "3" = some ["-O3"]
    ∧ ArmclangCompiler.get_optimization_args "s" = some ["-Os"] := by
  decide

/-- C9: every capability query is a total function here, and each
unsupported capability answers with an empty list (or, for the
precompiled-header suffixes, a plain constant), never a lookup error; the
one supported capability, armclang precompiled-header use, answers its
two-token list. -/
theorem C9_capability_queries (outtarget outfile pch_dir header : String)
    (get_pch_name : String → String) :
    ArmCompiler.get_pic_args = []
    ∧ ArmCompiler.get_always_args = []
    ∧ ArmCompiler.get_dependency_gen_args outtarget outfile = []
    ∧ ArmCompiler.get_pch_use_args pch_dir header = []
    ∧ ArmCompiler.get_pch_suffix = "pch"
    ∧ ArmCompiler.get_coverage_args = []
    ∧ ArmclangCompiler.get_pic_args = []
    ∧ ArmclangCompiler.get_dependency_gen_args outtarget outfile = []
    ∧ ArmclangCompiler.get_pch_suffix = "gch"
    ∧ ArmclangCompiler.get_pch_use_args get_pch_name pch_dir header
        = ["-include-pch", posixJoin pch_dir (get_pch_name header)]
    ∧ ArmclangCompiler.get_always_args = []
    ∧ ArmclangCompiler.get_coverage_args = [] :=
  ⟨rfl, rfl, rfl, rfl, rfl, rfl, rfl, rfl, rfl, rfl, rfl, rfl⟩

/-- C1: when the captured linker output has no Component line, construction
does not fail with the structured EnvironmentException: the source builds
the exception object without raising it, and the bare assert that follows
fails on the None match, so the failure kind is AssertionError. -/
theorem C1_assert_instead_of_raise (version stdo : String)
    (h : searchComponent stdo = none) :
    (ArmclangCompiler.init true version (Except.ok stdo)).1
      = Except.error PyError.assertionError := by
  simp [ArmclangCompiler.init, h]

/-- Witness for C1 on a captured output that names the tool but has no
Component line. -/
theorem C1_assert_instead_of_raise_witness :
    (searchComponent "ARM Compiler 6.15" = none)
    ∧ (ArmclangCompiler.init true "6.15" (Except.ok "ARM Compiler 6.15")).1
        = Except.error PyError.assertionError :=
  ⟨by decide, C1_assert_instead_of_raise "6.15" "ARM Compiler 6.15" (by decide)⟩

/-- C2 counterexample: with linker-reported 6.4 against compiler 6.15 the
construction does fail, but with a fixed message that contains neither
version string, against the claim that both are named verbatim. -/
theorem C2_counterexample :
    (ArmclangCompiler.init true "6.15" (Except.ok "Component: ARM Compiler 6.4")).1
      = Except.error (PyError.environmentException
          "armlink version does not match with compiler version")
    ∧ containsSub ['6', '.', '4']
        "armlink version does not match with compiler version".data = false
    ∧ containsSub ['6', '.', '1', '5']
        "armlink version does not match with compiler version".data = false := by
  refine ⟨rfl, by decide, by decide⟩

/-- C2 amended: once a Component line is found, construction succeeds
exactly when the extracted linker version equals the compiler version as
strings; on inequality it fails with the mismatch EnvironmentException
whose message is a fixed sentence naming neither version, and when no
version token can be extracted from the line it fails with a TypeError
(the None match is concatenated onto the string of two equality signs)
rather than with the mismatch exception. -/
theorem C2_strict_equality (version stdo : String) (line : List Char)
    (hc : searchComponent stdo = some line) :
    (search_versionL line = none →
        (ArmclangCompiler.init true version (Except.ok stdo)).1
          = Except.error PyError.typeError)
    ∧ (∀ lv, search_versionL line = some lv →
        (ArmclangCompiler.init true version (Except.ok stdo)).1
          = if String.mk lv = version then
              Except.ok ⟨"armclang", ArmclangCompiler.base_options_value⟩
            else Except.error (PyError.environmentException
              "armlink version does not match with compiler version")) := by
  constructor
  · intro hv
    simp [ArmclangCompiler.init, hc, hv]
  · intro lv hv
    by_cases he : String.mk lv = version
    · have hb : version_compare version ("==" ++ String.mk lv) = true :=
        (version_compare_append version (String.mk lv)).mpr he
      have hres : (ArmclangCompiler.init true version (Except.ok stdo)).1
          = Except.ok ⟨"armclang", ArmclangCompiler.base_options_value⟩ := by
        simp [ArmclangCompiler.init, hc, hv, hb]
      rw [hres, if_pos he]
    · have hb : version_compare version ("==" ++ String.mk lv) = false := by
        rcases hbv : version_compare version ("==" ++ String.mk lv) with _ | _
        · rfl
        · exact absurd ((version_compare_append version (String.mk lv)).mp hbv) he
      have hres : (ArmclangCompiler.init true version (Except.ok stdo)).1
          = Except.error (PyError.environmentException
              "armlink version does not match with compiler version") := by
        simp [ArmclangCompiler.init, hc, hv, hb]
      rw [hres, if_neg he]

/-- Witness for C2 on matching versions 6.15 / 6.15. -/
theorem C2_strict_equality_witness :
    (searchComponent "Component 6.15" = some "Component 6.15".data)
    ∧ (search_versionL "Component 6.15".data = some "6.15".data)
    ∧ (ArmclangCompiler.init true "6.15" (Except.ok "Component 6.15")).1
        = Except.ok ⟨"armclang", ArmclangCompiler.base_options_value⟩ := by
  refine ⟨by decide, by decide, ?_⟩
  have h := (C2_strict_equality "6.15" "Component 6.15" "Component 6.15".data
      (by decide)).2 "6.15".data (by decide)
  simpa using h

/-- C4 counterexample: after a call on a list holding one -I token, the
caller-supplied list no longer holds its original token: the rewriter
mutates its argument in place. -/
theorem C4_counterexample :
    input_list_after_call ["-I../inc"] "/build" ≠ ["-I../inc"] := by
  decide

/-- C4 amended: the rewriter updates the caller-supplied sequence in place
and returns that very sequence, so after the call the input list equals
the returned list, namely the per-token transform mapped over the
original; the input is left untouched exactly when the transform fixes
every one of its tokens. -/
theorem C4_in_place_update (args : List String) (bd : String) :
    input_list_after_call args bd = compute_parameters_with_absolute_paths args bd
    ∧ input_list_after_call args bd = args.map (rewriteToken bd)
    ∧ (input_list_after_call args bd = args ↔ ∀ t ∈ args, rewriteToken bd t = t) := by
  refine ⟨rfl, cpwap_eq_map args bd, ?_⟩
  rw [input_list_after_call, cpwap_eq_map]
  exact map_eq_self_of_list (rewriteToken bd) args

/-- C7: the rewriter treats each token independently: a token whose first
two characters are -I or -L becomes those two characters followed by the
normalized join of the build directory and the remainder, every other
token passes through unchanged in its position, and the worked example
rewrites -I../inc against /build to -I/inc. -/
theorem C7_rewrite_each_token (args : List String) (bd : String) :
    compute_parameters_with_absolute_paths args bd = args.map (rewriteToken bd)
    ∧ compute_parameters_with_absolute_paths ["-I../inc"] "/build" = ["-I/inc"] :=
  ⟨cpwap_eq_map args bd, by decide⟩

/-- C8: the rewriter preserves the token count and the relative order (the
output is the pointwise image of the input), it preserves every token's
first two characters, and a token lacking the -I and -L markers is fixed
by the transform, so a second application leaves such tokens unchanged. -/
theorem C8_rewrite_invariants (args : List String) (bd bd2 : String) (t : String)
    (h1 : t.data.take 2 ≠ ['-', 'I']) (h2 : t.data.take 2 ≠ ['-', 'L']) :
    (compute_parameters_with_absolute_paths args bd).length = args.length
    ∧ (compute_parameters_with_absolute_paths args bd).map (fun s => s.data.take 2)
        = args.map (fun s => s.data.take 2)
    ∧ rewriteToken bd2 t = t := by
  refine ⟨?_, ?_, ?_⟩
  · rw [cpwap_eq_map]
    exact List.length_map args (rewriteToken bd)
  · rw [cpwap_eq_map, List.map_map]
    have hf : ((fun s : String => s.data.take 2) ∘ rewriteToken bd)
        = fun s : String => s.data.take 2 :=
      funext fun s => take2_rewriteToken bd s
    rw [hf]
  · simp [rewriteToken, h1, h2]

/-- Witness for C8 on a two-token list and the token -O2. -/
theorem C8_rewrite_invariants_witness :
    ("-O2".data.take 2 ≠ ['-', 'I'])
    ∧ ("-O2".data.take 2 ≠ ['-', 'L'])
    ∧ ((compute_parameters_with_absolute_paths ["-I../inc", "-O2"] "/build").length
          = (["-I../inc", "-O2"] : List String).length
        ∧ (compute_parameters_with_absolute_paths ["-I../inc", "-O2"] "/build").map
              (fun s => s.data.take 2)
            = (["-I../inc", "-O2"] : List String).map (fun s => s.data.take 2)
        ∧ rewriteToken "/build" "-O2" = "-O2") :=
  ⟨by decide, by decide,
    C8_rewrite_invariants ["-I../inc", "-O2"] "/build" "/build" "-O2"
      (by decide) (by decide)⟩

/-- takeWhile collects exactly a leading block of satisfying elements when
the block is followed by a failing element. -/
theorem takeWhile_append_of_all (p : Char → Bool) (ds tail : List Char) (c : Char)
    (hall : ∀ x ∈ ds, p x = true) (hc : p c = false) :
    (ds ++ c :: tail).takeWhile p = ds := by
  induction ds with
  | nil => simp [List.takeWhile_cons, hc]
  | cons a as ih =>
      have ha : p a = true := hall a (by simp)
      simp [List.takeWhile_cons, ha, ih (fun x hx => hall x (by simp [hx]))]

/-- A successful dot-group match always starts with the dot. -/
theorem matchDots_head (fuel : Nat) (l d r : List Char)
    (h : matchDots fuel l = some (d, r)) : ∃ tail, d = '.' :: tail := by
  cases fuel with
  | zero => simp [matchDots] at h
  | succ fuel =>
      cases l with
      | nil => simp [matchDots] at h
      | cons c rest =>
          by_cases hc : c = '.'
          · subst hc
            by_cases hds : rest.takeWhile Char.isDigit = []
            · simp [matchDots, hds] at h
            · rcases hm : matchDots fuel (rest.dropWhile Char.isDigit) with _ | ⟨more, rest3⟩
              · simp [matchDots, hds, hm] at h
                exact ⟨rest.takeWhile Char.isDigit, h.1.symm⟩
              · simp [matchDots, hds, hm] at h
                exact ⟨rest.takeWhile Char.isDigit ++ more, h.1.symm⟩
          · simp [matchDots, hc] at h

/-- An anchored match decomposes as the leading digit run of the position,
of length one or two, followed by a dot and the rest of the token. -/
theorem matchHere_shape (prev : Option Char) (l t : List Char)
    (h : matchHere prev l = some t) :
    ∃ tail, t = l.takeWhile Char.isDigit ++ '.' :: tail
      ∧ 1 ≤ (l.takeWhile Char.isDigit).length
      ∧ (l.takeWhile Char.isDigit).length ≤ 2 := by
  simp only [matchHere] at h
  by_cases hp : prevBlocks prev = true
  · rw [if_pos hp] at h
    exact Option.noConfusion h
  · rw [if_neg hp] at h
    by_cases hlen : (l.takeWhile Char.isDigit).length = 0
        ∨ 2 < (l.takeWhile Char.isDigit).length
    · rw [if_pos hlen] at h
      exact Option.noConfusion h
    · have hb := hlen
      push_neg at hb
      rw [if_neg hlen] at h
      rcases hm : matchDots (l.dropWhile Char.isDigit).length (l.dropWhile Char.isDigit)
          with _ | ⟨dots, rest2⟩
      · rw [hm] at h
        exact Option.noConfusion h
      · rw [hm] at h
        obtain ⟨tail0, rfl⟩ := matchDots_head _ _ _ _ hm
        have h2 : (l.takeWhile Char.isDigit ++ '.' :: tail0) ++ matchTag rest2 = t :=
          Option.some.inj h
        refine ⟨tail0 ++ matchTag rest2, ?_,
          Nat.one_le_iff_ne_zero.mpr hb.1, hb.2⟩
        rw [← h2, List.append_assoc]
        rfl

/-- Whatever the scan returns was produced by one anchored match at some
position with some carried preceding character. -/
theorem searchVer_some (prev : Option Char) (l t : List Char)
    (h : searchVer prev l = some t) : ∃ p m, matchHere p m = some t := by
  induction l generalizing prev with
  | nil => exact ⟨prev, [], h⟩
  | cons c rest ih =>
      rcases hm : matchHere prev (c :: rest) with _ | t2
      · rw [searchVer, hm] at h
        exact ih (some c) h
      · rw [searchVer, hm] at h
        exact ⟨prev, c :: rest, hm.trans h⟩

/-- C10: any token the version extraction yields starts with a major
component of one or two digits (its leading digit run has length between
one and two), a position led by a digit or a dot is rejected outright by
the lookbehind, and a dotted version with a three-digit major component is
never extracted: the line Component Toolkit 123.4 yields no token. -/
theorem C10_version_token_shape (s t : List Char)
    (h : search_versionL s = some t) :
    (1 ≤ (t.takeWhile Char.isDigit).length ∧ (t.takeWhile Char.isDigit).length ≤ 2)
    ∧ (∀ (c : Char) (l : List Char), (c.isDigit || c == '.') = true
        → matchHere (some c) l = none)
    ∧ search_version "Component Toolkit 123.4" = none := by
  refine ⟨?_, ?_, by decide⟩
  · obtain ⟨p, m, hm⟩ := searchVer_some none s t h
    obtain ⟨tail, ht, h1, h2⟩ := matchHere_shape p m t hm
    have hall : ∀ x ∈ m.takeWhile Char.isDigit, Char.isDigit x = true :=
      fun x hx => List.mem_takeWhile_imp hx
    have htw : t.takeWhile Char.isDigit = m.takeWhile Char.isDigit := by
      rw [ht]
      exact takeWhile_append_of_all Char.isDigit _ tail '.' hall (by decide)
    rw [htw]
    exact ⟨h1, h2⟩
  · intro c l hcd
    simp [matchHere, prevBlocks, hcd]

/-- Witness for C10 on the line Component 12.4, whose extracted token 12.4
has a two-digit major component. -/
theorem C10_version_token_shape_witness :
    (search_versionL "Component 12.4".data = some ['1', '2', '.', '4'])
    ∧ ((1 ≤ (['1', '2', '.', '4'].takeWhile Char.isDigit).length
          ∧ (['1', '2', '.', '4'].takeWhile Char.isDigit).length ≤ 2)
        ∧ (∀ (c : Char) (l : List Char), (c.isDigit || c == '.') = true
            → matchHere (some c) l = none)
        ∧ search_version "Component Toolkit 123.4" = none) :=
  ⟨by decide,
    C10_version_token_shape "Component 12.4".data ['1', '2', '.', '4'] (by decide)⟩
